import Mathlib

/-!
Shallow embedding of `src/supply.rs` of the RGB20 library (asset supply
information & management): the `Supply`, `Issue`, `Epoch` and `BurnReplace`
record types and their extraction constructors, translated from the Rust
source.  Machine integers (`u64` / `AtomicValue`) are modelled as `Nat` with
explicit wrapping (mod `2 ^ 64`) at every arithmetic operation the source
performs, matching two's-complement release semantics of Rust `u64`
arithmetic.  Fallible constructors return `Except Error _`.
-/

namespace RGB20

/-- The modulus of Rust `u64` arithmetic: `2 ^ 64`. -/
def U64MOD : Nat := 18446744073709551616

/-- Wrapping `u64` addition (`a + b` in release Rust). -/
def wadd (a b : Nat) : Nat := (a + b) % U64MOD

/-- Wrapping `u64` subtraction (`a - b` in release Rust); for `a b < U64MOD`
this is two's-complement wrap-around subtraction. -/
def wsub (a b : Nat) : Nat := (a + (U64MOD - b % U64MOD)) % U64MOD

/-- `NodeId` from rgb-core: opaque identity of an operation, compared by
equality only; modelled as `Nat`. -/
abbrev NodeId := Nat

/-- `ContractId` from rgb-core: opaque identity of the contract. -/
abbrev ContractId := Nat

/-- `bitcoin::Txid`: opaque witness-transaction identity. -/
abbrev Txid := Nat

/-- `bitcoin::OutPoint`: a transaction output reference (txid + vout). -/
structure OutPoint where
  txid : Txid
  vout : Nat
deriving DecidableEq

/-- Modelled from the spec: `crate::schema::FieldType` is absent from `src/`;
the spec lists the metadata field-type tags used by this core as opaque
schema constants (issued-supply, burned-supply). -/
inductive FieldType where
  | IssuedSupply
  | BurnedSupply
deriving DecidableEq

/-- Modelled from the spec: `crate::schema::OwnedRightType` is absent from
`src/`; the spec lists the owned-right type tags as opaque schema constants
(inflation-right, open-epoch-right, burn-replace-right). -/
inductive OwnedRightType where
  | Inflation
  | OpenEpoch
  | BurnReplace
deriving DecidableEq

/-- Modelled from the spec: `crate::schema::TransitionType` is absent from
`src/`; the extraction code only compares a transition's subtype tag against
the burn-and-replace tag, so the model keeps the two burn subtypes and an
opaque tag for every other transition type. -/
inductive TransitionType where
  | Burn
  | BurnAndReplace
  | Other (tag : Nat)
deriving DecidableEq

/-- Modelled from the spec: `crate::asset::Error` is absent from `src/`; the
spec's §7 lists the error kinds surfaced by extraction. `NoWitnessSeal`
stands for the seal-resolution failure propagated when a genesis seal cannot
be converted into an absolute `OutPoint`. -/
inductive Error where
  | UnsatisfiedSchemaRequirement
  | InflationAssignmentConfidential (node_id : NodeId)
  | EpochSealConfidential (node_id : NodeId)
  | BurnSealConfidential (node_id : NodeId)
  | NoWitnessSeal
deriving DecidableEq

/-- rgb-core `seal::Revealed`: a revealed single-use seal, either an absolute
transaction output or an output of the (yet unknown) witness transaction. -/
inductive Seal where
  | txOutpoint (txid : Txid) (vout : Nat)
  | witnessVout (vout : Nat)
deriving DecidableEq

/-- rgb-core `seal::Revealed::to_outpoint_reveal`: resolve a revealed seal
against the witness transaction id into an absolute `OutPoint`. -/
def Seal.toOutpointReveal (s : Seal) (witness : Txid) : OutPoint :=
  match s with
  | .txOutpoint txid vout => ⟨txid, vout⟩
  | .witnessVout vout => ⟨witness, vout⟩

/-- `OutPoint::try_from(seal)` used on genesis seals: only absolute seals
convert; a witness-relative seal is a seal-resolution failure. -/
def Seal.tryIntoOutpoint (s : Seal) : Except Error OutPoint :=
  match s with
  | .txOutpoint txid vout => .ok ⟨txid, vout⟩
  | .witnessVout _ => .error .NoWitnessSeal

/-- One owned-right assignment slot (rgb-core `Assignment`): its seal and its
attached value are each either revealed or confidential. -/
structure Assignment where
  sealRevealed : Option Seal
  valueRevealed : Option Nat
deriving DecidableEq

/-- rgb-core `AssignmentVec::as_revealed_owned_value`: all slots must be fully
revealed (both seal and value), else the data is confidential. -/
def asRevealedOwnedValue (l : List Assignment) : Except Unit (List (Seal × Nat)) :=
  match l with
  | [] => .ok []
  | a :: rest =>
    match a.sealRevealed, a.valueRevealed with
    | some s, some v => (asRevealedOwnedValue rest).map fun tl => (s, v) :: tl
    | _, _ => .error ()

/-- rgb-core `Node::revealed_seals_by_type` restricted to one right type's
assignment list: every slot's seal must be revealed, else the data is
confidential. -/
def revealedSeals (l : List Assignment) : Except Unit (List Seal) :=
  match l with
  | [] => .ok []
  | a :: rest =>
    match a.sealRevealed with
    | some s => (revealedSeals rest).map fun tl => s :: tl
    | none => .error ()

/-- Operation metadata (rgb-core `Metadata` restricted to what the source
reads): the list of `u64` field values, tagged by field type, in encoding
order. -/
abbrev Metadata := List (FieldType × Nat)

/-- `Metadata::u64(field_type)`: all `u64` values carried under the given
field type, in order. -/
def Metadata.u64 (md : Metadata) (ft : FieldType) : List Nat :=
  (md.filter fun p => p.1 = ft).map fun p => p.2

/-- Owned rights of an operation (rgb-core `OwnedRights` restricted to what
the source reads): an association list from right type to assignment list. -/
abbrev OwnedRights := List (OwnedRightType × List Assignment)

/-- `Node::owned_rights_by_type`: `none` when the operation carries no rights
of the given type (the map has no such key). -/
def OwnedRights.byType (or : OwnedRights) (t : OwnedRightType) : Option (List Assignment) :=
  (or.find? fun p => p.1 = t).map fun p => p.2

/-- rgb-core `Transition`, restricted to the fields the source reads: node
identity, subtype tag, metadata and owned rights. -/
structure Transition where
  node_id : NodeId
  transition_type : TransitionType
  metadata : Metadata
  owned_rights : OwnedRights
deriving DecidableEq

/-- `Transition::revealed_seals_by_type`: the revealed seals of the given
right type (empty when the operation carries none), or a confidential-data
error when any seal of that type is confidential. -/
def Transition.revealedSealsByType (t : Transition) (rt : OwnedRightType) :
    Except Unit (List Seal) :=
  match t.owned_rights.byType rt with
  | none => .ok []
  | some l => revealedSeals l

/-- rgb-core `Genesis`, restricted to the fields the source reads. -/
structure Genesis where
  node_id : NodeId
  contract_id : ContractId
  metadata : Metadata
  owned_rights : OwnedRights
deriving DecidableEq

/-! ## `Supply` (src/supply.rs lines 73-134) -/

/-- `Supply`: extended supply information derived from known contract data. -/
structure Supply where
  known_circulating : Nat
  is_known : Option Bool
  issue_limit : Nat
deriving DecidableEq

/-- `Supply::with`. -/
def Supply.with (known_circulating : Nat) (is_known : Option Bool)
    (issue_limit : Nat) : Supply :=
  ⟨known_circulating, is_known, issue_limit⟩

/-- `Supply::total_circulating`: precise supply data if known, else `none`. -/
def Supply.totalCirculating (s : Supply) : Option Nat :=
  if s.is_known.getD false then some s.known_circulating else none

/-! ## `Issue` (src/supply.rs lines 160-298) -/

/-- The inflation-assignments aggregation map
`BTreeMap<OutPoint, (AtomicValue, Vec<u16>)>`, modelled as an association
list with unique keys kept sorted by key (BTreeMap order): outpoint to
(summed amount, contributing assignment indices). -/
abbrev InflationMap := List (OutPoint × Nat × List Nat)

/-- Strict BTreeMap key order on `OutPoint` (lexicographic txid, vout). -/
def OutPoint.lt (a b : OutPoint) : Bool :=
  a.txid < b.txid || (a.txid = b.txid && a.vout < b.vout)

/-- One step of the aggregation fold in `Issue::with` / `TryFrom<&Genesis>`:
`assignments.entry(k).or_insert((0, vec![])); item.0 += amount; item.1.push(index)`.
Insertion keeps keys sorted and unique; the amount accumulates with `u64`
addition and the index is pushed truncated to `u16` (`index as u16`). -/
def InflationMap.update (m : InflationMap) (k : OutPoint) (amount index : Nat) :
    InflationMap :=
  match m with
  | [] => [(k, wadd 0 amount, [index % 65536])]
  | (k', v) :: rest =>
    if k = k' then (k', wadd v.1 amount, v.2 ++ [index % 65536]) :: rest
    else if OutPoint.lt k k' then
      (k, wadd 0 amount, [index % 65536]) :: (k', v) :: rest
    else (k', v) :: InflationMap.update rest k amount index

/-- Map lookup in the aggregation map. -/
def InflationMap.get (m : InflationMap) (k : OutPoint) : Option (Nat × List Nat) :=
  (m.find? fun p => p.1 = k).map fun p => p.2

/-- The enumerate-and-fold over revealed (seal, amount) pairs shared by both
`Issue` extraction paths, with the seal already resolved to an `OutPoint` by
`resolve`; `i` is the running enumeration index. -/
def inflationFoldFrom (resolve : Seal → OutPoint) (i : Nat)
    (xs : List (Seal × Nat)) (m : InflationMap) : InflationMap :=
  match xs with
  | [] => m
  | (s, a) :: rest =>
    inflationFoldFrom resolve (i + 1) rest (m.update (resolve s) a i)

/-- The genesis-path fold (`try_fold`): each seal is resolved fallibly with
`OutPoint::try_from` and the first failure aborts the whole fold. -/
def inflationTryFoldFrom (i : Nat) (xs : List (Seal × Nat)) (m : InflationMap) :
    Except Error InflationMap :=
  match xs with
  | [] => .ok m
  | (s, a) :: rest =>
    match s.tryIntoOutpoint with
    | .error e => .error e
    | .ok k => inflationTryFoldFrom (i + 1) rest (m.update k a i)

/-- `Issue`: one asset issuance event (primary or secondary). -/
structure Issue where
  node_id : NodeId
  contract_id : ContractId
  amount : Nat
  closes : List OutPoint
  inflation_assignments : InflationMap
  witness : Option Txid
deriving DecidableEq

/-- The composition
`owned_rights_by_type(t).map(as_revealed_owned_value).transpose()?.unwrap_or_default()`
shared by both `Issue` extraction paths: no rights of the type means an empty
list, confidential data propagates as the error. -/
def ownedRightsRevealedValue (rights : OwnedRights) (rt : OwnedRightType) :
    Except Unit (List (Seal × Nat)) :=
  match rights.byType rt with
  | none => .ok []
  | some l => asRevealedOwnedValue l

/-- `Issue::with`: extract an `Issue` from an issuance transition. -/
def Issue.with (contract_id : ContractId) (closes : List OutPoint)
    (t : Transition) (witness : Txid) : Except Error Issue :=
  match (t.metadata.u64 .IssuedSupply).head? with
  | none => .error .UnsatisfiedSchemaRequirement
  | some amount =>
    match ownedRightsRevealedValue t.owned_rights .Inflation with
    | .error _ => .error (.InflationAssignmentConfidential t.node_id)
    | .ok revealed =>
      .ok { node_id := t.node_id, contract_id, amount, closes,
            inflation_assignments :=
              inflationFoldFrom (fun s => s.toOutpointReveal witness) 0 revealed [],
            witness := some witness }

/-- `Issue::is_primary`: the issue is defined by genesis. -/
def Issue.isPrimary (i : Issue) : Bool := i.closes.isEmpty

/-- `Issue::is_secondary`: the issue is an inflation state transition. -/
def Issue.isSecondary (i : Issue) : Bool := !i.closes.isEmpty

/-- `TryFrom<&Genesis> for Issue`: extract a primary `Issue` from genesis. -/
def Issue.tryFromGenesis (g : Genesis) : Except Error Issue :=
  match (g.metadata.u64 .IssuedSupply).head? with
  | none => .error .UnsatisfiedSchemaRequirement
  | some amount =>
    match ownedRightsRevealedValue g.owned_rights .Inflation with
    | .error _ => .error (.InflationAssignmentConfidential g.node_id)
    | .ok revealed =>
      match inflationTryFoldFrom 0 revealed [] with
      | .error e => .error e
      | .ok inflation_assignments =>
        .ok { node_id := g.node_id, contract_id := g.contract_id, amount,
              closes := [], inflation_assignments, witness := none }

/-! ## `Epoch` (src/supply.rs lines 323-410) -/

/-- `BurnReplace`: one burn or burn-and-replace operation within an epoch. -/
structure BurnReplace where
  node_id : NodeId
  epoch_id : NodeId
  no : Nat
  contract_id : ContractId
  closes : OutPoint
  does_replacement : Bool
  burned_amount : Nat
  replaced_amount : Nat
  supply_change : Nat
  is_final : Bool
  seal' : Option OutPoint
  witness : Txid
deriving DecidableEq

/-- `Epoch`: one numbered burn-and-replace window. -/
structure Epoch where
  node_id : NodeId
  no : Nat
  contract_id : ContractId
  closes : OutPoint
  epoch_seal : Option OutPoint
  seal' : Option OutPoint
  is_final : Bool
  is_unlocked : Bool
  known_operations : List BurnReplace
  witness : Txid
deriving DecidableEq

/-- `Epoch::with`: extract an `Epoch` from an epoch-opening transition. -/
def Epoch.with (contract_id : ContractId) (no : Nat) (closes : OutPoint)
    (t : Transition) (operations : List BurnReplace) (witness : Txid) :
    Except Error Epoch :=
  match t.revealedSealsByType .OpenEpoch with
  | .error _ => .error (.EpochSealConfidential t.node_id)
  | .ok epochSeals =>
    match t.revealedSealsByType .BurnReplace with
    | .error _ => .error (.BurnSealConfidential t.node_id)
    | .ok burnSeals =>
      let epoch_seal := epochSeals.head?.map fun s => s.toOutpointReveal witness
      let seal' := burnSeals.head?.map fun s => s.toOutpointReveal witness
      .ok { node_id := t.node_id, no, contract_id, closes, epoch_seal,
            seal' := seal', is_final := epoch_seal.isNone,
            is_unlocked := seal'.isSome, known_operations := operations,
            witness }

/-! ## `BurnReplace` extraction (src/supply.rs lines 510-564) -/

/-- `BurnReplace::with`: extract a `BurnReplace` from a burn or
burn-and-replace transition.  `supply_change` is the source's unchecked
`u64` subtraction `burned_amount - replaced_amount`, modelled wrapping. -/
def BurnReplace.with (contract_id : ContractId) (epoch_id : NodeId) (no : Nat)
    (closes : OutPoint) (t : Transition) (witness : Txid) :
    Except Error BurnReplace :=
  match t.revealedSealsByType .BurnReplace with
  | .error _ => .error (.BurnSealConfidential t.node_id)
  | .ok burnSeals =>
    let seal' := burnSeals.head?.map fun s => s.toOutpointReveal witness
    let does_replacement := t.transition_type == TransitionType.BurnAndReplace
    match (t.metadata.u64 .BurnedSupply).head? with
    | none => .error .UnsatisfiedSchemaRequirement
    | some burned_amount =>
      match (t.metadata.u64 .IssuedSupply).head? with
      | none => .error .UnsatisfiedSchemaRequirement
      | some replaced_amount =>
        .ok { node_id := t.node_id, epoch_id, no, contract_id, closes,
              does_replacement, burned_amount, replaced_amount,
              supply_change := wsub burned_amount replaced_amount,
              is_final := seal'.isNone, seal' := seal', witness }

/-! ## Concrete operations used by witnesses -/

/-- A genesis issuing 1000 with no inflation rights. -/
def genesis1000 : Genesis :=
  { node_id := 1, contract_id := 7, metadata := [(.IssuedSupply, 1000)],
    owned_rights := [] }

/-- The `Issue` record extracted from `genesis1000`. -/
def issue1000 : Issue :=
  { node_id := 1, contract_id := 7, amount := 1000, closes := [],
    inflation_assignments := [], witness := none }

/-- An epoch-opening transition with a revealed open-epoch seal and a revealed
burn/replace seal. -/
def epochT : Transition :=
  { node_id := 21, transition_type := .Other 0, metadata := [],
    owned_rights :=
      [(.OpenEpoch, [{ sealRevealed := some (.txOutpoint 100 1), valueRevealed := none }]),
       (.BurnReplace, [{ sealRevealed := some (.witnessVout 2), valueRevealed := none }])] }

/-- The `Epoch` record extracted from `epochT` (contract 1, epoch 1, closing
outpoint 9:0, witness 77). -/
def epochResult : Epoch :=
  { node_id := 21, no := 1, contract_id := 1, closes := ⟨9, 0⟩,
    epoch_seal := some ⟨100, 1⟩, seal' := some ⟨77, 2⟩, is_final := false,
    is_unlocked := true, known_operations := [], witness := 77 }

/-- A burn-and-replace transition with burned = 500, replaced = 200 and no
successor seal. -/
def burnReplaceT : Transition :=
  { node_id := 31, transition_type := .BurnAndReplace,
    metadata := [(.BurnedSupply, 500), (.IssuedSupply, 200)],
    owned_rights := [] }

/-- The `BurnReplace` record extracted from `burnReplaceT`. -/
def burnReplaceResult : BurnReplace :=
  { node_id := 31, epoch_id := 3, no := 1, contract_id := 1, closes := ⟨9, 1⟩,
    does_replacement := true, burned_amount := 500, replaced_amount := 200,
    supply_change := 300, is_final := true, seal' := none, witness := 88 }

/-- A pure-burn transition carrying a burned-supply field but no issued-supply
field. -/
def pureBurnNoIssuedT : Transition :=
  { node_id := 41, transition_type := .Burn,
    metadata := [(.BurnedSupply, 500)], owned_rights := [] }

/-- A burn-and-replace transition whose burned-supply metadata field is
absent. -/
def noBurnedT : Transition :=
  { node_id := 45, transition_type := .BurnAndReplace,
    metadata := [(.IssuedSupply, 5)], owned_rights := [] }

/-- A burn transition with burned = 0 and replaced = 1: the subtraction
`burned - replaced` underflows. -/
def underflowT : Transition :=
  { node_id := 51, transition_type := .Burn,
    metadata := [(.BurnedSupply, 0), (.IssuedSupply, 1)], owned_rights := [] }

/-- The `BurnReplace` record extracted from `underflowT`: its `supply_change`
is the wrapped value `2 ^ 64 - 1`. -/
def underflowResult : BurnReplace :=
  { node_id := 51, epoch_id := 4, no := 1, contract_id := 1, closes := ⟨9, 3⟩,
    does_replacement := false, burned_amount := 0, replaced_amount := 1,
    supply_change := 18446744073709551615, is_final := true, seal' := none,
    witness := 66 }

/-- An issuance transition with a confidential inflation-right seal. -/
def confInflT : Transition :=
  { node_id := 61, transition_type := .Other 1,
    metadata := [(.IssuedSupply, 10)],
    owned_rights := [(.Inflation, [{ sealRevealed := none, valueRevealed := some 5 }])] }

/-- A genesis with an inflation right whose value is confidential. -/
def confInflG : Genesis :=
  { node_id := 62, contract_id := 3, metadata := [(.IssuedSupply, 10)],
    owned_rights :=
      [(.Inflation, [{ sealRevealed := some (.txOutpoint 1 1), valueRevealed := none }])] }

/-- An epoch-opening transition whose open-epoch seal is confidential. -/
def confEpochT : Transition :=
  { node_id := 63, transition_type := .Other 2, metadata := [],
    owned_rights := [(.OpenEpoch, [{ sealRevealed := none, valueRevealed := none }])] }

/-- A transition whose burn/replace seal is confidential (and which carries
no open-epoch right). -/
def confBurnSealT : Transition :=
  { node_id := 64, transition_type := .Burn, metadata := [],
    owned_rights := [(.BurnReplace, [{ sealRevealed := none, valueRevealed := none }])] }

/-- A burn-and-replace transition carrying two values for each metadata field
and two revealed seals of each right type. -/
def dupT : Transition :=
  { node_id := 71, transition_type := .BurnAndReplace,
    metadata := [(.IssuedSupply, 10), (.IssuedSupply, 20),
                 (.BurnedSupply, 30), (.BurnedSupply, 40)],
    owned_rights :=
      [(.OpenEpoch,
        [{ sealRevealed := some (.txOutpoint 5 1), valueRevealed := none },
         { sealRevealed := some (.txOutpoint 6 2), valueRevealed := none }]),
       (.BurnReplace,
        [{ sealRevealed := some (.witnessVout 3), valueRevealed := none },
         { sealRevealed := some (.witnessVout 4), valueRevealed := none }])] }

/-- The `Issue` record extracted from `dupT`: amount 10, the first
issued-supply value. -/
def issueDupResult : Issue :=
  { node_id := 71, contract_id := 2, amount := 10, closes := [],
    inflation_assignments := [], witness := some 55 }

/-- The `BurnReplace` record extracted from `dupT`: first burned-supply and
issued-supply values and first burn/replace seal. -/
def burnDupResult : BurnReplace :=
  { node_id := 71, epoch_id := 5, no := 1, contract_id := 2, closes := ⟨9, 5⟩,
    does_replacement := true, burned_amount := 30, replaced_amount := 10,
    supply_change := 20, is_final := false, seal' := some ⟨55, 3⟩,
    witness := 55 }

/-- The `Epoch` record extracted from `dupT`: first open-epoch and
burn/replace seals. -/
def epochDupResult : Epoch :=
  { node_id := 71, no := 2, contract_id := 2, closes := ⟨9, 6⟩,
    epoch_seal := some ⟨5, 1⟩, seal' := some ⟨55, 3⟩, is_final := false,
    is_unlocked := true, known_operations := [], witness := 55 }

/-! ## Aggregation: sortedness invariant and declarative description -/

/-- BTreeMap invariant of the aggregation map: keys strictly increasing. -/
def InflationMap.Sorted (m : InflationMap) : Prop :=
  m.Pairwise fun p q => OutPoint.lt p.1 q.1 = true

/-- Declarative side of the aggregation (following the spec's words "for
each seal, sum all amounts assigned to it"): the amounts of the assignment
slots whose seal resolves to `k`, in encounter order. -/
def aggAmounts (resolve : Seal → OutPoint) (xs : List (Seal × Nat))
    (k : OutPoint) : List Nat :=
  match xs with
  | [] => []
  | (s, a) :: rest =>
    if resolve s = k then a :: aggAmounts resolve rest k
    else aggAmounts resolve rest k

/-- Declarative side of the aggregation (following the spec's words "record
the ordered list of assignment indices that contributed"): the indices
(truncated to `u16` as the source's `index as u16` does) of the slots whose
seal resolves to `k`, in encounter order, counting from `i`. -/
def aggIndices (resolve : Seal → OutPoint) (i : Nat) (xs : List (Seal × Nat))
    (k : OutPoint) : List Nat :=
  match xs with
  | [] => []
  | (s, _) :: rest =>
    if resolve s = k then (i % 65536) :: aggIndices resolve (i + 1) rest k
    else aggIndices resolve (i + 1) rest k

/-- Combining a pre-existing entry with a seal's contributed amounts and
indices: no contribution leaves the entry alone; contributions accumulate
with wrapping `u64` addition and append their indices. -/
def combineEntry (prev : Option (Nat × List Nat)) (amts idxs : List Nat) :
    Option (Nat × List Nat) :=
  match prev with
  | none => if amts.isEmpty then none else some (amts.foldl wadd 0, idxs)
  | some (v, l) => some (amts.foldl wadd v, l ++ idxs)

/-- Total resolver matching `OutPoint::try_from` on the absolute seals a
genesis may carry (the witness-relative case never arises when the fallible
fold succeeds). -/
def genesisResolve : Seal → OutPoint := fun s =>
  match s with
  | .txOutpoint txid vout => ⟨txid, vout⟩
  | .witnessVout vout => ⟨0, vout⟩

/-- An issuance transition with two inflation assignment slots targeting the
same seal with amounts 30 and 70. -/
def infl3070T : Transition :=
  { node_id := 81, transition_type := .Other 3,
    metadata := [(.IssuedSupply, 10)],
    owned_rights := [(.Inflation,
      [{ sealRevealed := some (.txOutpoint 5 9), valueRevealed := some 30 },
       { sealRevealed := some (.txOutpoint 5 9), valueRevealed := some 70 }])] }

/-- The `Issue` record extracted from `infl3070T`: one aggregated entry with
amount 100 and index list [0, 1]. -/
def issue3070Result : Issue :=
  { node_id := 81, contract_id := 4, amount := 10, closes := [],
    inflation_assignments := [(⟨5, 9⟩, 100, [0, 1])], witness := some 90 }

/-- A genesis with two inflation assignment slots targeting the same absolute
seal with amounts 40 and 60. -/
def infl4060G : Genesis :=
  { node_id := 82, contract_id := 4, metadata := [(.IssuedSupply, 10)],
    owned_rights := [(.Inflation,
      [{ sealRevealed := some (.txOutpoint 2 1), valueRevealed := some 40 },
       { sealRevealed := some (.txOutpoint 2 1), valueRevealed := some 60 }])] }

/-- The `Issue` record extracted from `infl4060G`. -/
def issue4060Result : Issue :=
  { node_id := 82, contract_id := 4, amount := 10, closes := [],
    inflation_assignments := [(⟨2, 1⟩, 100, [0, 1])], witness := none }

/-! ## Arithmetic facts about the wrapping subtraction -/

/-- Without underflow (`r ≤ b < 2 ^ 64`) the wrapping subtraction is the
mathematical difference. -/
theorem wsub_eq_sub (b r : Nat) (h1 : r ≤ b) (h2 : b < U64MOD) :
    wsub b r = b - r := by
  have h2a : b < 18446744073709551616 := h2
  show (b + (18446744073709551616 - r % 18446744073709551616)) %
      18446744073709551616 = b - r
  omega

/-- With underflow (`b < r < 2 ^ 64`) the wrapping subtraction lands
`2 ^ 64` above the mathematical difference. -/
theorem wsub_eq_wrap (b r : Nat) (h1 : b < r) (h2 : r < U64MOD) :
    wsub b r = b + U64MOD - r := by
  have h2a : r < 18446744073709551616 := h2
  show (b + (18446744073709551616 - r % 18446744073709551616)) %
      18446744073709551616 = b + 18446744073709551616 - r
  omega

/-- Successful `BurnReplace::with` extraction pins every derived field to the
transition's data: `supply_change` is the wrapping subtraction of the first
burned-supply and first issued-supply metadata values, `is_final` mirrors the
absence of the first revealed burn/replace seal, and `does_replacement`
mirrors the subtype tag. -/
theorem burnReplace_with_ok (cid : ContractId) (eid : NodeId) (no : Nat)
    (closes : OutPoint) (t : Transition) (w : Txid) (r : BurnReplace)
    (h : BurnReplace.with cid eid no closes t w = .ok r) :
    r.supply_change = wsub r.burned_amount r.replaced_amount ∧
    r.is_final = r.seal'.isNone ∧
    (t.metadata.u64 .BurnedSupply).head? = some r.burned_amount ∧
    (t.metadata.u64 .IssuedSupply).head? = some r.replaced_amount ∧
    r.does_replacement = (t.transition_type == TransitionType.BurnAndReplace) ∧
    r.node_id = t.node_id ∧
    (∃ ls, t.revealedSealsByType .BurnReplace = .ok ls ∧
      r.seal' = ls.head?.map fun s => s.toOutpointReveal w) := by
  unfold BurnReplace.with at h
  split at h
  · exact Except.noConfusion h
  · split at h
    · exact Except.noConfusion h
    · split at h
      · exact Except.noConfusion h
      · injection h with h
        subst h
        refine ⟨rfl, rfl, ?_, ?_, rfl, rfl, ?_⟩ <;> simp_all

/-- Successful `Issue::with` extraction pins every field to the transition's
data: the amount is the first issued-supply metadata value and the
aggregation map is the enumerate-and-fold over the revealed inflation
rights. -/
theorem issue_with_ok (cid : ContractId) (closes : List OutPoint)
    (t : Transition) (w : Txid) (i : Issue)
    (h : Issue.with cid closes t w = .ok i) :
    (t.metadata.u64 .IssuedSupply).head? = some i.amount ∧
    i.node_id = t.node_id ∧ i.contract_id = cid ∧ i.closes = closes ∧
    i.witness = some w ∧
    (∃ xs, ownedRightsRevealedValue t.owned_rights .Inflation = .ok xs ∧
      i.inflation_assignments =
        inflationFoldFrom (fun s => s.toOutpointReveal w) 0 xs []) := by
  unfold Issue.with at h
  split at h
  · exact Except.noConfusion h
  · split at h
    · exact Except.noConfusion h
    · injection h with h
      subst h
      refine ⟨?_, rfl, rfl, rfl, rfl, ?_⟩ <;> simp_all

/-- Successful `Epoch::with` extraction pins `epoch_seal` and `seal` to the
first revealed seal of the open-epoch and burn/replace right types. -/
theorem epoch_with_ok (cid : ContractId) (no : Nat) (closes : OutPoint)
    (t : Transition) (ops : List BurnReplace) (w : Txid) (e : Epoch)
    (h : Epoch.with cid no closes t ops w = .ok e) :
    ∃ ls1 ls2, t.revealedSealsByType .OpenEpoch = .ok ls1 ∧
      t.revealedSealsByType .BurnReplace = .ok ls2 ∧
      e.epoch_seal = (ls1.head?.map fun s => s.toOutpointReveal w) ∧
      e.seal' = (ls2.head?.map fun s => s.toOutpointReveal w) ∧
      e.node_id = t.node_id ∧ e.no = no ∧ e.contract_id = cid ∧
      e.closes = closes ∧ e.known_operations = ops ∧ e.witness = w := by
  unfold Epoch.with at h
  split at h
  · exact Except.noConfusion h
  · split at h
    · exact Except.noConfusion h
    · injection h with h
      subst h
      refine ⟨_, _, ?_, ?_, rfl, rfl, rfl, rfl, rfl, rfl, rfl, rfl⟩ <;>
        simp_all

/-! ## Confidential data lemmas -/

/-- A slot with a confidential seal or value makes
`as_revealed_owned_value` fail. -/
theorem asRevealedOwnedValue_error (l : List Assignment)
    (h : ∃ a ∈ l, a.sealRevealed = none ∨ a.valueRevealed = none) :
    asRevealedOwnedValue l = .error () := by
  induction l with
  | nil => exact absurd h (by simp)
  | cons a rest ih =>
    rcases h with ⟨x, hx, hconf⟩
    rcases List.mem_cons.mp hx with rfl | hxr
    · cases hs : x.sealRevealed <;> cases hv : x.valueRevealed <;>
        simp_all [asRevealedOwnedValue]
    · have herr := ih ⟨x, hxr, hconf⟩
      cases hs : a.sealRevealed <;> cases hv : a.valueRevealed <;>
        simp [asRevealedOwnedValue, hs, hv, herr, Except.map]

/-- A slot with a confidential seal makes `revealed_seals_by_type` fail. -/
theorem revealedSeals_error (l : List Assignment)
    (h : ∃ a ∈ l, a.sealRevealed = none) :
    revealedSeals l = .error () := by
  induction l with
  | nil => exact absurd h (by simp)
  | cons a rest ih =>
    rcases h with ⟨x, hx, hconf⟩
    rcases List.mem_cons.mp hx with rfl | hxr
    · simp [revealedSeals, hconf]
    · have herr := ih ⟨x, hxr, hconf⟩
      cases hs : a.sealRevealed <;> simp [revealedSeals, hs, herr, Except.map]

/-! ## Aggregation-map lemmas -/

/-- The key order on explicit outpoints. -/
theorem outPoint_lt_mk (t1 v1 t2 v2 : Nat) :
    OutPoint.lt ⟨t1, v1⟩ ⟨t2, v2⟩ = true ↔ t1 < t2 ∨ (t1 = t2 ∧ v1 < v2) := by
  simp [OutPoint.lt]

/-- The key order is transitive. -/
theorem outPoint_lt_trans {a b c : OutPoint} (h1 : OutPoint.lt a b = true)
    (h2 : OutPoint.lt b c = true) : OutPoint.lt a c = true := by
  rcases a with ⟨t1, v1⟩; rcases b with ⟨t2, v2⟩; rcases c with ⟨t3, v3⟩
  rw [outPoint_lt_mk] at h1 h2 ⊢
  omega

/-- The key order is irreflexive on equal keys. -/
theorem outPoint_ne_of_lt {a b : OutPoint} (h : OutPoint.lt a b = true) :
    a ≠ b := by
  intro he
  subst he
  rcases a with ⟨t1, v1⟩
  rw [outPoint_lt_mk] at h
  omega

/-- The key order is total on distinct keys. -/
theorem outPoint_lt_total {a b : OutPoint} (hne : a ≠ b) :
    OutPoint.lt a b = true ∨ OutPoint.lt b a = true := by
  rcases a with ⟨t1, v1⟩; rcases b with ⟨t2, v2⟩
  simp only [ne_eq, OutPoint.mk.injEq, not_and] at hne
  rw [outPoint_lt_mk, outPoint_lt_mk]
  by_cases ht : t1 = t2
  · subst ht; rcases Nat.lt_or_ge v1 v2 with h | h
    · exact Or.inl (Or.inr ⟨rfl, h⟩)
    · exact Or.inr (Or.inr ⟨rfl, Nat.lt_of_le_of_ne h fun he => hne rfl he.symm⟩)
  · rcases Nat.lt_or_ge t1 t2 with h | h
    · exact Or.inl (Or.inl h)
    · exact Or.inr (Or.inl (Nat.lt_of_le_of_ne h fun he => ht he.symm))

/-- Lookup on a cons cell of the aggregation map. -/
theorem inflationMap_get_cons (p : OutPoint × Nat × List Nat)
    (m : InflationMap) (k : OutPoint) :
    InflationMap.get (p :: m) k =
      if p.1 = k then some p.2 else InflationMap.get m k := by
  by_cases hp : p.1 = k
  · simp [InflationMap.get, List.find?_cons, hp]
  · simp [InflationMap.get, List.find?_cons, hp]

/-- A key below every key of the map is absent from it. -/
theorem inflationMap_get_none_of_lt (m : InflationMap) (k : OutPoint)
    (h : ∀ p ∈ m, OutPoint.lt k p.1 = true) : m.get k = none := by
  induction m with
  | nil => rfl
  | cons p rest ih =>
    rw [inflationMap_get_cons,
      if_neg fun he => outPoint_ne_of_lt (h p (by simp)) he.symm]
    exact ih fun q hq => h q (by simp [hq])

/-- Every key of the updated map is the inserted key or a key of the
original map. -/
theorem inflationMap_update_mem (m : InflationMap) (k : OutPoint) (a i : Nat)
    (p : OutPoint × Nat × List Nat) (hp : p ∈ m.update k a i) :
    p.1 = k ∨ ∃ q ∈ m, p.1 = q.1 := by
  induction m with
  | nil =>
    simp only [InflationMap.update, List.mem_singleton] at hp
    exact Or.inl (by rw [hp])
  | cons q rest ih =>
    obtain ⟨qk, qv⟩ := q
    unfold InflationMap.update at hp
    by_cases h1 : k = qk
    · rw [if_pos h1] at hp
      rcases List.mem_cons.mp hp with he | hrest
      · exact Or.inr ⟨(qk, qv), by simp, by rw [he]⟩
      · exact Or.inr ⟨p, by simp [hrest], rfl⟩
    · rw [if_neg h1] at hp
      by_cases h2 : OutPoint.lt k qk = true
      · rw [if_pos h2] at hp
        rcases List.mem_cons.mp hp with he | hrest
        · exact Or.inl (by rw [he])
        · exact Or.inr ⟨p, by simp [hrest], rfl⟩
      · rw [if_neg h2] at hp
        rcases List.mem_cons.mp hp with he | hrest
        · exact Or.inr ⟨(qk, qv), by simp, by rw [he]⟩
        · rcases ih hrest with hk | ⟨q2, hq2, he⟩
          · exact Or.inl hk
          · exact Or.inr ⟨q2, by simp [hq2], he⟩

/-- The fold step preserves the BTreeMap sortedness invariant. -/
theorem inflationMap_update_sorted (m : InflationMap) (k : OutPoint)
    (a i : Nat) (hs : m.Sorted) : (m.update k a i).Sorted := by
  induction m with
  | nil => simp [InflationMap.update, InflationMap.Sorted]
  | cons q rest ih =>
    obtain ⟨qk, qv⟩ := q
    rcases List.pairwise_cons.mp hs with ⟨hall, hrest⟩
    unfold InflationMap.update
    by_cases h1 : k = qk
    · rw [if_pos h1]
      exact List.pairwise_cons.mpr ⟨fun q2 hq2 => hall q2 hq2, hrest⟩
    · rw [if_neg h1]
      by_cases h2 : OutPoint.lt k qk = true
      · rw [if_pos h2]
        refine List.pairwise_cons.mpr ⟨?_, hs⟩
        intro q2 hq2
        rcases List.mem_cons.mp hq2 with rfl | hq2r
        · exact h2
        · exact outPoint_lt_trans h2 (hall q2 hq2r)
      · rw [if_neg h2]
        refine List.pairwise_cons.mpr ⟨?_, ih hrest⟩
        intro q2 hq2
        rcases inflationMap_update_mem rest k a i q2 hq2 with he | ⟨q3, hq3, he⟩
        · rw [he]
          rcases outPoint_lt_total h1 with h3 | h3
          · exact absurd h3 h2
          · exact h3
        · rw [he]; exact hall q3 hq3

/-- Lookup of the inserted key after an update: a fresh key starts at
`(0 + amount, [index])`, an existing one accumulates. -/
theorem inflationMap_get_update_self (m : InflationMap) (k : OutPoint)
    (a i : Nat) (hs : m.Sorted) :
    (m.update k a i).get k = some
      (match m.get k with
       | none => (wadd 0 a, [i % 65536])
       | some (v, l) => (wadd v a, l ++ [i % 65536])) := by
  induction m with
  | nil =>
    show InflationMap.get [(k, wadd 0 a, [i % 65536])] k = _
    rw [inflationMap_get_cons, if_pos rfl]
    rfl
  | cons q rest ih =>
    obtain ⟨qk, qv⟩ := q
    rcases List.pairwise_cons.mp hs with ⟨hall, hrest⟩
    unfold InflationMap.update
    by_cases h1 : k = qk
    · rw [if_pos h1]
      rw [inflationMap_get_cons, if_pos h1.symm,
        inflationMap_get_cons, if_pos h1.symm]
    · rw [if_neg h1]
      by_cases h2 : OutPoint.lt k qk = true
      · rw [if_pos h2]
        rw [inflationMap_get_cons, if_pos rfl]
        have hnone : InflationMap.get ((qk, qv) :: rest) k = none := by
          refine inflationMap_get_none_of_lt _ _ ?_
          intro p hp
          rcases List.mem_cons.mp hp with rfl | hpr
          · exact h2
          · exact outPoint_lt_trans h2 (hall p hpr)
        rw [hnone]
      · rw [if_neg h2]
        rw [inflationMap_get_cons, if_neg fun he => h1 he.symm,
          inflationMap_get_cons, if_neg fun he => h1 he.symm]
        exact ih hrest

/-- Lookup of a different key is unchanged by an update. -/
theorem inflationMap_get_update_ne (m : InflationMap) (k : OutPoint)
    (a i : Nat) (k' : OutPoint) (h : k' ≠ k) :
    (m.update k a i).get k' = m.get k' := by
  induction m with
  | nil =>
    show InflationMap.get [(k, _, _)] k' = none
    rw [inflationMap_get_cons, if_neg fun he => h he.symm]
    rfl
  | cons q rest ih =>
    obtain ⟨qk, qv⟩ := q
    unfold InflationMap.update
    by_cases h1 : k = qk
    · rw [if_pos h1]
      rw [inflationMap_get_cons, inflationMap_get_cons]
      subst h1
      rw [if_neg fun he => h he.symm, if_neg fun he => h he.symm]
    · rw [if_neg h1]
      by_cases h2 : OutPoint.lt k qk = true
      · rw [if_pos h2]
        rw [inflationMap_get_cons, if_neg fun he => h he.symm]
      · rw [if_neg h2]
        rw [inflationMap_get_cons, inflationMap_get_cons]
        by_cases h3 : qk = k'
        · rw [if_pos h3, if_pos h3]
        · rw [if_neg h3, if_neg h3]
          exact ih

/-- Refinement of the enumerate-and-fold aggregation: the entry of a key `k`
after folding is the previous entry combined with the wrapping sum of the
amounts of the slots resolving to `k` and their (u16-truncated) indices in
encounter order. -/
theorem inflationFoldFrom_get (resolve : Seal → OutPoint)
    (xs : List (Seal × Nat)) (i : Nat) (m : InflationMap) (hs : m.Sorted)
    (k : OutPoint) :
    (inflationFoldFrom resolve i xs m).get k =
      combineEntry (m.get k) (aggAmounts resolve xs k)
        (aggIndices resolve i xs k) := by
  induction xs generalizing i m with
  | nil =>
    show m.get k = combineEntry (m.get k) [] []
    cases hm : m.get k with
    | none => rfl
    | some p => obtain ⟨v, l⟩ := p; simp [combineEntry]
  | cons p rest ih =>
    obtain ⟨s, a⟩ := p
    show (inflationFoldFrom resolve (i + 1) rest
      (m.update (resolve s) a i)).get k = _
    rw [ih (i + 1) (m.update (resolve s) a i)
      (inflationMap_update_sorted m _ a i hs)]
    by_cases hres : resolve s = k
    · rw [hres, inflationMap_get_update_self m k a i hs]
      cases hm : m.get k with
      | none => simp [hm, combineEntry, aggAmounts, aggIndices, hres]
      | some q =>
        obtain ⟨v, l⟩ := q
        simp [hm, combineEntry, aggAmounts, aggIndices, hres]
    · rw [inflationMap_get_update_ne m (resolve s) a i k
        fun he => hres he.symm]
      simp [aggAmounts, aggIndices, hres]

/-- When every seal is absolute the genesis fallible fold agrees with the
total fold under `genesisResolve`. -/
theorem inflationTryFoldFrom_eq_fold (xs : List (Seal × Nat)) (i : Nat)
    (m : InflationMap)
    (hall : ∀ p ∈ xs, ∃ tx v, p.1 = Seal.txOutpoint tx v) :
    inflationTryFoldFrom i xs m =
      .ok (inflationFoldFrom genesisResolve i xs m) := by
  induction xs generalizing i m with
  | nil => rfl
  | cons p rest ih =>
    obtain ⟨s, a⟩ := p
    obtain ⟨tx, v, hseq⟩ := hall (s, a) (by simp)
    cases s with
    | witnessVout vv => exact Seal.noConfusion hseq
    | txOutpoint tx2 v2 =>
      exact ih (i + 1) (m.update ⟨tx2, v2⟩ a i)
        fun q hq => hall q (by simp [hq])

/-- Successful genesis `Issue` extraction pins every field to the genesis
data; the aggregation map comes from the fallible fold over the revealed
inflation rights. -/
theorem issue_genesis_ok (g : Genesis) (i : Issue)
    (h : Issue.tryFromGenesis g = .ok i) :
    (g.metadata.u64 .IssuedSupply).head? = some i.amount ∧
    i.node_id = g.node_id ∧ i.contract_id = g.contract_id ∧
    i.closes = [] ∧ i.witness = none ∧
    ∃ xs, ownedRightsRevealedValue g.owned_rights .Inflation = .ok xs ∧
      inflationTryFoldFrom 0 xs [] = .ok i.inflation_assignments := by
  unfold Issue.tryFromGenesis at h
  split at h
  · exact Except.noConfusion h
  · split at h
    · exact Except.noConfusion h
    · split at h
      · exact Except.noConfusion h
      · injection h with h
        subst h
        refine ⟨?_, rfl, rfl, rfl, rfl, ?_⟩ <;> simp_all

/-! ## Claims -/

/-- C3: for every `Supply` value, `total_circulating()` returns
`Some(known_circulating)` when `is_known == Some(true)` and `None` when
`is_known` is `None` or `Some(false)`. -/
theorem C3_total_circulating (s : Supply) :
    (s.is_known = some true → s.totalCirculating = some s.known_circulating) ∧
    ((s.is_known = none ∨ s.is_known = some false) → s.totalCirculating = none) := by
  constructor
  · intro h; simp [Supply.totalCirculating, h]
  · rintro (h | h) <;> simp [Supply.totalCirculating, h]

/-- Witness for C3 at concrete supplies in each of the three `is_known`
states. -/
theorem C3_total_circulating_witness :
    (Supply.with 5 (some true) 10).totalCirculating = some 5 ∧
    (Supply.with 6 none 10).totalCirculating = none ∧
    (Supply.with 8 (some false) 10).totalCirculating = none :=
  ⟨(C3_total_circulating _).1 rfl, (C3_total_circulating _).2 (Or.inl rfl),
   (C3_total_circulating _).2 (Or.inr rfl)⟩

/-- C7: for every `Issue` record, `is_primary()` is true exactly when
`closes` is empty, `is_secondary()` exactly when it is non-empty, and
`is_primary() != is_secondary()` always holds. -/
theorem C7_primary_xor_secondary (i : Issue) :
    (i.isPrimary = true ↔ i.closes = []) ∧
    (i.isSecondary = true ↔ i.closes ≠ []) ∧
    i.isPrimary ≠ i.isSecondary := by
  rcases i with ⟨nid, cid, amt, cl, infl, w⟩
  cases cl <;> simp [Issue.isPrimary, Issue.isSecondary]

/-- C6: every successfully constructed `Epoch` has
`is_final() == epoch_seal.is_none()` and `is_unlocked() == seal.is_some()`,
both derived at construction time from the seals themselves. -/
theorem C6_epoch_flags (cid : ContractId) (no : Nat) (closes : OutPoint)
    (t : Transition) (ops : List BurnReplace) (w : Txid) (e : Epoch)
    (h : Epoch.with cid no closes t ops w = .ok e) :
    e.is_final = e.epoch_seal.isNone ∧ e.is_unlocked = e.seal'.isSome := by
  unfold Epoch.with at h
  split at h
  · exact Except.noConfusion h
  · split at h
    · exact Except.noConfusion h
    · injection h with h
      subst h
      exact ⟨rfl, rfl⟩

/-- Witness for C6: the epoch extracted from `epochT`. -/
theorem C6_epoch_flags_witness :
    epochResult.is_final = epochResult.epoch_seal.isNone ∧
    epochResult.is_unlocked = epochResult.seal'.isSome :=
  C6_epoch_flags 1 1 ⟨9, 0⟩ epochT [] 77 epochResult rfl

/-- C5: every successfully constructed `BurnReplace` record has
`is_final() == seal.is_none()` and `supply_change() == burned_amount() -
replaced_amount()` (the source's `u64` subtraction), and under the
precondition `replaced_amount <= burned_amount` (with `burned_amount` a
genuine `u64`) that difference is the mathematical one and non-negative. -/
theorem C5_burn_replace_invariants (cid : ContractId) (eid : NodeId) (no : Nat)
    (closes : OutPoint) (t : Transition) (w : Txid) (r : BurnReplace)
    (h : BurnReplace.with cid eid no closes t w = .ok r) :
    r.is_final = r.seal'.isNone ∧
    r.supply_change = wsub r.burned_amount r.replaced_amount ∧
    (r.replaced_amount ≤ r.burned_amount → r.burned_amount < U64MOD →
      r.supply_change = r.burned_amount - r.replaced_amount ∧
      0 ≤ (r.burned_amount : Int) - (r.replaced_amount : Int)) := by
  obtain ⟨hsc, hfin, -, -, -, -⟩ := burnReplace_with_ok cid eid no closes t w r h
  refine ⟨hfin, hsc, fun hle hlt => ⟨?_, by omega⟩⟩
  rw [hsc, wsub_eq_sub _ _ hle hlt]

/-- Witness for C5: the record extracted from `burnReplaceT` (burned 500,
replaced 200, no successor seal). -/
theorem C5_burn_replace_invariants_witness :
    burnReplaceResult.is_final = burnReplaceResult.seal'.isNone ∧
    burnReplaceResult.supply_change =
      burnReplaceResult.burned_amount - burnReplaceResult.replaced_amount :=
  have h := C5_burn_replace_invariants 1 3 1 ⟨9, 1⟩ burnReplaceT 88
    burnReplaceResult rfl
  ⟨h.1, (h.2.2 (by decide) (by decide)).1⟩

/-- C1 counterexample: a pure-burn transition (`does_replacement` would be
false) whose issued-supply metadata field is absent makes `BurnReplace`
extraction fail with `UnsatisfiedSchemaRequirement` instead of yielding
`replaced_amount = 0`. -/
theorem C1_counterexample :
    pureBurnNoIssuedT.transition_type ≠ TransitionType.BurnAndReplace ∧
    pureBurnNoIssuedT.metadata.u64 .IssuedSupply = [] ∧
    pureBurnNoIssuedT.metadata.u64 .BurnedSupply = [500] ∧
    BurnReplace.with 1 2 1 ⟨9, 2⟩ pureBurnNoIssuedT 99 =
      .error .UnsatisfiedSchemaRequirement :=
  ⟨by decide, rfl, rfl, rfl⟩

/-- C1 amended: `BurnReplace` extraction reads the burned-supply metadata
field and fails with `UnsatisfiedSchemaRequirement` if it is absent; it reads
the issued-supply metadata field as the replaced amount and fails with
`UnsatisfiedSchemaRequirement` if that is absent too, for pure-burn and
replace operations alike; when both are present the first values are taken. -/
theorem C1_burn_replace_metadata (cid : ContractId) (eid : NodeId) (no : Nat)
    (closes : OutPoint) (t : Transition) (w : Txid) (ls : List Seal)
    (hseal : t.revealedSealsByType .BurnReplace = .ok ls) :
    ((t.metadata.u64 .BurnedSupply).head? = none →
      BurnReplace.with cid eid no closes t w =
        .error .UnsatisfiedSchemaRequirement) ∧
    (∀ b, (t.metadata.u64 .BurnedSupply).head? = some b →
      (t.metadata.u64 .IssuedSupply).head? = none →
      BurnReplace.with cid eid no closes t w =
        .error .UnsatisfiedSchemaRequirement) ∧
    (∀ b v, (t.metadata.u64 .BurnedSupply).head? = some b →
      (t.metadata.u64 .IssuedSupply).head? = some v →
      ∃ r, BurnReplace.with cid eid no closes t w = .ok r ∧
        r.burned_amount = b ∧ r.replaced_amount = v) := by
  refine ⟨fun hb => ?_, fun b hb hv => ?_, fun b v hb hv => ?_⟩ <;>
    simp [BurnReplace.with, hseal, hb]
  · simp [hv]
  · simp [hv]

/-- Witness for C1: a pure burn with issued supply absent and a transition
with burned supply absent both fail with `UnsatisfiedSchemaRequirement`. -/
theorem C1_burn_replace_metadata_witness :
    BurnReplace.with 1 2 1 ⟨9, 2⟩ pureBurnNoIssuedT 99 =
      .error .UnsatisfiedSchemaRequirement ∧
    BurnReplace.with 1 2 1 ⟨9, 2⟩ noBurnedT 99 =
      .error .UnsatisfiedSchemaRequirement :=
  ⟨(C1_burn_replace_metadata 1 2 1 ⟨9, 2⟩ pureBurnNoIssuedT 99 [] rfl).2.1
      500 rfl rfl,
   (C1_burn_replace_metadata 1 2 1 ⟨9, 2⟩ noBurnedT 99 [] rfl).1 rfl⟩

/-- C2 counterexample: at burned = 0, replaced = 1 the construction succeeds
and performs the wrapping (underflowing) subtraction: the stored
`supply_change` is `2 ^ 64 - 1`, not the mathematical difference. -/
theorem C2_counterexample :
    BurnReplace.with 1 4 1 ⟨9, 3⟩ underflowT 66 = .ok underflowResult ∧
    underflowResult.burned_amount < underflowResult.replaced_amount ∧
    underflowResult.supply_change = U64MOD - 1 ∧
    (underflowResult.supply_change : Int) ≠
      (underflowResult.burned_amount : Int) -
        (underflowResult.replaced_amount : Int) :=
  ⟨rfl, by decide, by decide, by decide⟩

/-- C2 amended: the computation of `supply_change` is not guarded:
construction performs the unchecked wrapping `u64` subtraction, so whenever
`replaced_amount > burned_amount` (both genuine `u64` values) the stored
`supply_change` is `burned - replaced + 2 ^ 64`, differing from the
mathematical difference; only when `replaced_amount <= burned_amount` does no
underflow occur. -/
theorem C2_unchecked_subtraction (cid : ContractId) (eid : NodeId) (no : Nat)
    (closes : OutPoint) (t : Transition) (w : Txid) (r : BurnReplace)
    (h : BurnReplace.with cid eid no closes t w = .ok r)
    (hb : r.burned_amount < U64MOD) (hr : r.replaced_amount < U64MOD) :
    r.supply_change = wsub r.burned_amount r.replaced_amount ∧
    (r.burned_amount < r.replaced_amount →
      r.supply_change = r.burned_amount + U64MOD - r.replaced_amount ∧
      (r.supply_change : Int) ≠
        (r.burned_amount : Int) - (r.replaced_amount : Int)) ∧
    (r.replaced_amount ≤ r.burned_amount →
      r.supply_change = r.burned_amount - r.replaced_amount) := by
  obtain ⟨hsc, -, -, -, -, -⟩ := burnReplace_with_ok cid eid no closes t w r h
  have hW : U64MOD = 18446744073709551616 := rfl
  refine ⟨hsc, fun hlt => ?_, fun hle => ?_⟩
  · have hwrap := wsub_eq_wrap _ _ hlt hr
    rw [hsc, hwrap]
    constructor
    · rfl
    · rw [hW] at hb hr ⊢
      omega
  · rw [hsc, wsub_eq_sub _ _ hle hb]

/-- Witness for C2: the record extracted from `underflowT` wraps to
`2 ^ 64 - 1`. -/
theorem C2_unchecked_subtraction_witness :
    underflowResult.supply_change =
      underflowResult.burned_amount + U64MOD - underflowResult.replaced_amount :=
  ((C2_unchecked_subtraction 1 4 1 ⟨9, 3⟩ underflowT 66 underflowResult rfl
      (by decide) (by decide)).2.1 (by decide)).1

/-- C8: extracting an `Issue` from a genesis whose issued-supply metadata is
1000 and which carries no inflation rights yields amount 1000, empty
`closes`, empty `inflation_assignments`, witness `None`, and
`is_primary() == true`. -/
theorem C8_genesis_primary_issue :
    Issue.tryFromGenesis genesis1000 = .ok issue1000 ∧
    issue1000.isPrimary = true :=
  ⟨rfl, rfl⟩

/-- C9: extraction inputs containing a confidential element where a revealed
one is required fail with the specific error carrying the operation's node
id: a confidential inflation right fails `Issue` extraction (from a
transition or a genesis) with `InflationAssignmentConfidential(node_id)`; a
confidential open-epoch or burn/replace seal fails `Epoch` extraction with
`EpochSealConfidential(node_id)` or `BurnSealConfidential(node_id)`
respectively (and likewise `BurnReplace` extraction). -/
theorem C9_confidential_errors :
    (∀ (cid : ContractId) (closes : List OutPoint) (t : Transition) (w : Txid)
       (l : List Assignment) (v : Nat),
       (t.metadata.u64 .IssuedSupply).head? = some v →
       t.owned_rights.byType .Inflation = some l →
       (∃ a ∈ l, a.sealRevealed = none ∨ a.valueRevealed = none) →
       Issue.with cid closes t w =
         .error (.InflationAssignmentConfidential t.node_id)) ∧
    (∀ (g : Genesis) (l : List Assignment) (v : Nat),
       (g.metadata.u64 .IssuedSupply).head? = some v →
       g.owned_rights.byType .Inflation = some l →
       (∃ a ∈ l, a.sealRevealed = none ∨ a.valueRevealed = none) →
       Issue.tryFromGenesis g =
         .error (.InflationAssignmentConfidential g.node_id)) ∧
    (∀ (cid : ContractId) (no : Nat) (closes : OutPoint) (t : Transition)
       (ops : List BurnReplace) (w : Txid) (l : List Assignment),
       t.owned_rights.byType .OpenEpoch = some l →
       (∃ a ∈ l, a.sealRevealed = none) →
       Epoch.with cid no closes t ops w =
         .error (.EpochSealConfidential t.node_id)) ∧
    (∀ (cid : ContractId) (no : Nat) (closes : OutPoint) (t : Transition)
       (ops : List BurnReplace) (w : Txid) (ls : List Seal)
       (l : List Assignment),
       t.revealedSealsByType .OpenEpoch = .ok ls →
       t.owned_rights.byType .BurnReplace = some l →
       (∃ a ∈ l, a.sealRevealed = none) →
       Epoch.with cid no closes t ops w =
         .error (.BurnSealConfidential t.node_id)) ∧
    (∀ (cid : ContractId) (eid : NodeId) (no : Nat) (closes : OutPoint)
       (t : Transition) (w : Txid) (l : List Assignment),
       t.owned_rights.byType .BurnReplace = some l →
       (∃ a ∈ l, a.sealRevealed = none) →
       BurnReplace.with cid eid no closes t w =
         .error (.BurnSealConfidential t.node_id)) := by
  refine ⟨fun cid closes t w l v hv hl hc => ?_,
          fun g l v hv hl hc => ?_,
          fun cid no closes t ops w l hl hc => ?_,
          fun cid no closes t ops w ls l hok hl hc => ?_,
          fun cid eid no closes t w l hl hc => ?_⟩
  · simp [Issue.with, hv, ownedRightsRevealedValue, hl,
      asRevealedOwnedValue_error l hc]
  · simp [Issue.tryFromGenesis, hv, ownedRightsRevealedValue, hl,
      asRevealedOwnedValue_error l hc]
  · have h1 : t.revealedSealsByType .OpenEpoch = .error () := by
      simp [Transition.revealedSealsByType, hl, revealedSeals_error l hc]
    simp [Epoch.with, h1]
  · have h1 : t.revealedSealsByType .BurnReplace = .error () := by
      simp [Transition.revealedSealsByType, hl, revealedSeals_error l hc]
    simp [Epoch.with, hok, h1]
  · have h1 : t.revealedSealsByType .BurnReplace = .error () := by
      simp [Transition.revealedSealsByType, hl, revealedSeals_error l hc]
    simp [BurnReplace.with, h1]

/-- Witness for C9: concrete confidential inputs for all five conjuncts. -/
theorem C9_confidential_errors_witness :
    Issue.with 3 [] confInflT 50 =
      .error (.InflationAssignmentConfidential 61) ∧
    Issue.tryFromGenesis confInflG =
      .error (.InflationAssignmentConfidential 62) ∧
    Epoch.with 3 1 ⟨9, 7⟩ confEpochT [] 50 =
      .error (.EpochSealConfidential 63) ∧
    Epoch.with 3 1 ⟨9, 8⟩ confBurnSealT [] 50 =
      .error (.BurnSealConfidential 64) ∧
    BurnReplace.with 3 6 1 ⟨9, 9⟩ confBurnSealT 50 =
      .error (.BurnSealConfidential 64) :=
  ⟨C9_confidential_errors.1 3 [] confInflT 50 _ 10 rfl rfl
      (by decide),
   C9_confidential_errors.2.1 confInflG _ 10 rfl rfl
      (by decide),
   C9_confidential_errors.2.2.1 3 1 ⟨9, 7⟩ confEpochT [] 50 _ rfl
      (by decide),
   C9_confidential_errors.2.2.2.1 3 1 ⟨9, 8⟩ confBurnSealT [] 50 [] _ rfl rfl
      (by decide),
   C9_confidential_errors.2.2.2.2 3 6 1 ⟨9, 9⟩ confBurnSealT 50 _ rfl
      (by decide)⟩

/-- C10: when an operation carries more than one value for a metadata field
or more than one revealed seal of a right type, every extractor uses only
the first: `Issue` takes the first issued-supply value, `BurnReplace` the
first burned-supply and issued-supply values and the first burn/replace
seal, and `Epoch` the first open-epoch and burn/replace seals; subsequent
values are silently ignored. -/
theorem C10_first_value_wins :
    (∀ (cid : ContractId) (closes : List OutPoint) (t : Transition) (w : Txid)
       (i : Issue), Issue.with cid closes t w = .ok i →
       (t.metadata.u64 .IssuedSupply).head? = some i.amount) ∧
    (∀ (cid : ContractId) (eid : NodeId) (no : Nat) (closes : OutPoint)
       (t : Transition) (w : Txid) (r : BurnReplace),
       BurnReplace.with cid eid no closes t w = .ok r →
       (t.metadata.u64 .BurnedSupply).head? = some r.burned_amount ∧
       (t.metadata.u64 .IssuedSupply).head? = some r.replaced_amount ∧
       ∃ ls, t.revealedSealsByType .BurnReplace = .ok ls ∧
         r.seal' = (ls.head?.map fun s => s.toOutpointReveal w)) ∧
    (∀ (cid : ContractId) (no : Nat) (closes : OutPoint) (t : Transition)
       (ops : List BurnReplace) (w : Txid) (e : Epoch),
       Epoch.with cid no closes t ops w = .ok e →
       ∃ ls1 ls2, t.revealedSealsByType .OpenEpoch = .ok ls1 ∧
         t.revealedSealsByType .BurnReplace = .ok ls2 ∧
         e.epoch_seal = (ls1.head?.map fun s => s.toOutpointReveal w) ∧
         e.seal' = (ls2.head?.map fun s => s.toOutpointReveal w)) := by
  refine ⟨fun cid closes t w i h => (issue_with_ok cid closes t w i h).1,
          fun cid eid no closes t w r h => ?_,
          fun cid no closes t ops w e h => ?_⟩
  · obtain ⟨-, -, hb, hv, -, -, hseal⟩ :=
      burnReplace_with_ok cid eid no closes t w r h
    exact ⟨hb, hv, hseal⟩
  · obtain ⟨ls1, ls2, h1, h2, he, hs, -⟩ :=
      epoch_with_ok cid no closes t ops w e h
    exact ⟨ls1, ls2, h1, h2, he, hs⟩

/-- Witness for C10: `dupT` carries two values of every field and two seals
of both right types and all three extractors pick the first of each. -/
theorem C10_first_value_wins_witness :
    (dupT.metadata.u64 .IssuedSupply).head? = some issueDupResult.amount ∧
    (dupT.metadata.u64 .BurnedSupply).head? = some burnDupResult.burned_amount ∧
    (dupT.metadata.u64 .IssuedSupply).head? =
      some burnDupResult.replaced_amount ∧
    (∃ ls1 ls2, dupT.revealedSealsByType .OpenEpoch = .ok ls1 ∧
       dupT.revealedSealsByType .BurnReplace = .ok ls2 ∧
       epochDupResult.epoch_seal = (ls1.head?.map fun s => s.toOutpointReveal 55) ∧
       epochDupResult.seal' = (ls2.head?.map fun s => s.toOutpointReveal 55)) :=
  ⟨C10_first_value_wins.1 2 [] dupT 55 issueDupResult rfl,
   (C10_first_value_wins.2.1 2 5 1 ⟨9, 5⟩ dupT 55 burnDupResult rfl).1,
   (C10_first_value_wins.2.1 2 5 1 ⟨9, 5⟩ dupT 55 burnDupResult rfl).2.1,
   C10_first_value_wins.2.2 2 2 ⟨9, 6⟩ dupT [] 55 epochDupResult rfl⟩

/-- C4: during `Issue` extraction (from a transition or a genesis),
inflation rights are aggregated by destination seal: the map entry of each
outpoint `k` carries the wrapping sum of the amounts of every assignment
slot resolving to `k` (summed, not overwritten) and the list of the
contributing assignment indices in encounter (encoding) order. -/
theorem C4_inflation_aggregation :
    (∀ (cid : ContractId) (closes : List OutPoint) (t : Transition) (w : Txid)
       (i : Issue) (xs : List (Seal × Nat)),
       ownedRightsRevealedValue t.owned_rights .Inflation = .ok xs →
       Issue.with cid closes t w = .ok i →
       ∀ k, i.inflation_assignments.get k =
         combineEntry none (aggAmounts (fun s => s.toOutpointReveal w) xs k)
           (aggIndices (fun s => s.toOutpointReveal w) 0 xs k)) ∧
    (∀ (g : Genesis) (i : Issue) (xs : List (Seal × Nat)),
       ownedRightsRevealedValue g.owned_rights .Inflation = .ok xs →
       (∀ p ∈ xs, ∃ tx v, p.1 = Seal.txOutpoint tx v) →
       Issue.tryFromGenesis g = .ok i →
       ∀ k, i.inflation_assignments.get k =
         combineEntry none (aggAmounts genesisResolve xs k)
           (aggIndices genesisResolve 0 xs k)) := by
  constructor
  · intro cid closes t w i xs hxs h k
    obtain ⟨-, -, -, -, -, xs2, hxs2, hmap⟩ := issue_with_ok cid closes t w i h
    rw [hxs] at hxs2
    injection hxs2 with he
    subst he
    rw [hmap, inflationFoldFrom_get _ _ _ _ List.Pairwise.nil k]
    rfl
  · intro g i xs hxs hall h k
    obtain ⟨-, -, -, -, -, xs2, hxs2, hfold⟩ := issue_genesis_ok g i h
    rw [hxs] at hxs2
    injection hxs2 with he
    subst he
    rw [inflationTryFoldFrom_eq_fold xs 0 [] hall] at hfold
    injection hfold with he2
    rw [← he2, inflationFoldFrom_get _ _ _ _ List.Pairwise.nil k]
    rfl

/-- Witness for C4: two assignment slots with amounts 30 and 70 on the same
seal (transition path) and 40 and 60 (genesis path) each yield one entry
with the summed amount 100 and index list [0, 1]. -/
theorem C4_inflation_aggregation_witness :
    issue3070Result.inflation_assignments.get ⟨5, 9⟩ = some (100, [0, 1]) ∧
    issue4060Result.inflation_assignments.get ⟨2, 1⟩ = some (100, [0, 1]) := by
  constructor
  · have h := C4_inflation_aggregation.1 4 [] infl3070T 90 issue3070Result
      [(.txOutpoint 5 9, 30), (.txOutpoint 5 9, 70)] rfl rfl ⟨5, 9⟩
    exact h.trans (by decide)
  · have h := C4_inflation_aggregation.2 infl4060G issue4060Result
      [(.txOutpoint 2 1, 40), (.txOutpoint 2 1, 60)] rfl
      (by
        intro p hp
        simp only [List.mem_cons, List.not_mem_nil, or_false] at hp
        rcases hp with rfl | rfl
        · exact ⟨2, 1, rfl⟩
        · exact ⟨2, 1, rfl⟩)
      rfl ⟨2, 1⟩
    exact h.trans (by decide)

end RGB20
